import Mathlib

/-!
Shallow embedding of the veritas Brazilian tax-identifier validators:
`Validator.CPF` (cpf.go) and `ValidateCNPJ` (cnpj.go).

Go `interface{}` inputs are modelled by `GoValue`; the Go `error` return
(nil / error with message) by `VerifyResult`, with an extra `oob`
constructor marking the runtime panic that Go string indexing or slice
indexing would raise out of bounds, so that unreachability of such
panics can be stated and proved.
-/

namespace Veritas

/-- A dynamically typed Go value (`interface{}`): the validators only
distinguish strings from everything else. -/
inductive GoValue where
  | str (s : String)
  | intVal (n : Int)
  | boolVal (b : Bool)
  | nilVal
  deriving DecidableEq, Repr

/-- Result of a validator call: `ok` is Go's `nil` error, `err msg` is
`fmt.Errorf(msg)`, and `oob` marks an out-of-bounds index/slice panic
(an embedding artifact proved unreachable). -/
inductive VerifyResult where
  | ok
  | err (msg : String)
  | oob
  deriving DecidableEq, Repr

/-- `strconv.Atoi(string(digit))` with the error ignored: a decimal digit
character parses to its value, anything else leaves the zero value. -/
def digitVal (c : Char) : Nat :=
  if c.isDigit then c.toNat - '0'.toNat else 0

/-- `string(rune(d + '0'))`: the character for a digit value. -/
def digitChar (d : Nat) : Char := Char.ofNat (d + '0'.toNat)

/-- `regexp.MustCompile(`\D`).ReplaceAllString(s, "")`: keep exactly the
decimal digit characters, in order. -/
def digitsOnly (cs : List Char) : List Char := cs.filter Char.isDigit

/-- The Go summation loop `for i, digit := range base { sum += digitValue * weights[i] }`:
`weights[i]` panics when the digits outrun the weight table, hence `Option`. -/
def goWeightedSum : List Char → List Nat → Option Nat
  | [], _ => some 0
  | c :: cs, w :: ws => (goWeightedSum cs ws).map (fun r => digitVal c * w + r)
  | _ :: _, [] => none

/-- `remainder := sum % 11; d := 0; if remainder >= 2 { d = 11 - remainder }`. -/
def checkDigitRule (sum : Nat) : Nat :=
  if sum % 11 < 2 then 0 else 11 - sum % 11

/-- The CPF "identical digits" loop, verbatim from cpf.go:
`for _, digit := range cpfStr { if digit != first { break }; if digit == last { return err } }`.
Returns `true` when the error fires. -/
def cpfSeqLoop (first lastc : Char) : List Char → Bool
  | [] => false
  | d :: rest =>
    if d ≠ first then false
    else if d = lastc then true
    else cpfSeqLoop first lastc rest

/-- The CNPJ "identical digits" loop from cnpj.go:
`allSame := true; for _, digit := range cnpjStr { if digit != first { allSame = false; break } }`. -/
def cnpjAllSameLoop (first : Char) : List Char → Bool
  | [] => true
  | d :: rest => if d ≠ first then false else cnpjAllSameLoop first rest

def cpfWeights1 : List Nat := [10, 9, 8, 7, 6, 5, 4, 3, 2]

def cpfWeights2 : List Nat := [11, 10, 9, 8, 7, 6, 5, 4, 3, 2]

/-- Body of `Validator.CPF` after the type assertion and normalization,
operating on the cleaned digit characters. `fmt.Sprintf("%d%d", d1, d2)`
is embedded as the two digit characters, which is exact because both
check digits lie in [0,9] (`checkDigitRule_le_nine`). -/
def cpfOnDigits (cs : List Char) : VerifyResult :=
  if cs.length ≠ 11 then .err "CPF must have exactly 11 digits"
  else
    match cs.get? 0, cs.get? (cs.length - 1) with
    | some first, some lastc =>
      if cpfSeqLoop first lastc cs then
        .err "CPF cannot be a sequence of identical digits"
      else
        let base := cs.take 9
        let check := cs.drop 9
        match goWeightedSum base cpfWeights1 with
        | none => .oob
        | some sum1 =>
          let d1 := checkDigitRule sum1
          match goWeightedSum (base ++ [digitChar d1]) cpfWeights2 with
          | none => .oob
          | some sum2 =>
            let d2 := checkDigitRule sum2
            if check = [digitChar d1, digitChar d2] then .ok
            else .err "invalid CPF check digits"
    | _, _ => .oob

/-- `Validator.CPF` from cpf.go. -/
def cpfValidate : GoValue → VerifyResult
  | .str s => cpfOnDigits (digitsOnly s.data)
  | _ => .err "CPF must be a string"

def cnpjWeights1 : List Nat := [5, 4, 3, 2, 9, 8, 7, 6, 5, 4, 3, 2]

def cnpjWeights2 : List Nat := [6, 5, 4, 3, 2, 9, 8, 7, 6, 5, 4, 3, 2]

/-- Body of `ValidateCNPJ` after the type assertion and normalization. -/
def cnpjOnDigits (cs : List Char) : VerifyResult :=
  if cs.length ≠ 14 then .err "CNPJ must have exactly 14 digits"
  else
    match cs.get? 0 with
    | some first =>
      if cnpjAllSameLoop first cs then
        .err "CNPJ cannot be a sequence of identical digits"
      else
        let base := cs.take 12
        let check := cs.drop 12
        match goWeightedSum base cnpjWeights1 with
        | none => .oob
        | some sum1 =>
          let d1 := checkDigitRule sum1
          match goWeightedSum (base ++ [digitChar d1]) cnpjWeights2 with
          | none => .oob
          | some sum2 =>
            let d2 := checkDigitRule sum2
            if check = [digitChar d1, digitChar d2] then .ok
            else .err "invalid CNPJ check digits"
    | none => .oob

/-- `ValidateCNPJ` from cnpj.go. -/
def cnpjValidate : GoValue → VerifyResult
  | .str s => cnpjOnDigits (digitsOnly s.data)
  | _ => .err "CNPJ must be a string"

/-- Spec-side predicate "every digit in the sequence is identical"
(all characters equal to the first), used to compare the implemented
sequence checks against the documented contract. -/
def specAllIdentical : List Char → Bool
  | [] => true
  | c :: rest => rest.all (fun d => d = c)

/-- Spec-side weighted sum `Σ digit[i] * weight[i]`. -/
def specWeightedSum (ds ws : List Nat) : Nat :=
  (List.zipWith (fun d w => d * w) ds ws).sum

/-- Digit values of a character sequence. -/
def digitValues (cs : List Char) : List Nat := cs.map digitVal

/-- Spec formula for the first CPF check digit (§4.3). -/
def specCpfD1 (cs : List Char) : Nat :=
  checkDigitRule (specWeightedSum (digitValues (cs.take 9)) cpfWeights1)

/-- Spec formula for the second CPF check digit (§4.3). -/
def specCpfD2 (cs : List Char) : Nat :=
  checkDigitRule (specWeightedSum (digitValues (cs.take 9) ++ [specCpfD1 cs]) cpfWeights2)

/-- Spec formula for the first CNPJ check digit (§4.4). -/
def specCnpjD1 (cs : List Char) : Nat :=
  checkDigitRule (specWeightedSum (digitValues (cs.take 12)) cnpjWeights1)

/-- Spec formula for the second CNPJ check digit (§4.4). -/
def specCnpjD2 (cs : List Char) : Nat :=
  checkDigitRule (specWeightedSum (digitValues (cs.take 12) ++ [specCnpjD1 cs]) cnpjWeights2)

/-! ### Helper lemmas -/

theorem cpfSeqLoop_of_ne {first lastc : Char} (h : first ≠ lastc) :
    ∀ l : List Char, cpfSeqLoop first lastc l = false := by
  intro l
  induction l with
  | nil => rfl
  | cons d rest ih =>
    simp only [cpfSeqLoop]
    by_cases hd : d = first
    · subst hd
      simp [h, ih]
    · simp [hd]

theorem cpfSeqLoop_head_eq (first : Char) (rest : List Char) :
    cpfSeqLoop first first (first :: rest) = true := by
  simp [cpfSeqLoop]

theorem cnpjAllSameLoop_eq_all (f : Char) (l : List Char) :
    cnpjAllSameLoop f l = l.all (fun d => d = f) := by
  induction l with
  | nil => rfl
  | cons d rest ih =>
    simp only [cnpjAllSameLoop, List.all_cons]
    by_cases hd : d = f
    · simp [hd, ih]
    · simp [hd]

theorem goWeightedSum_eq_spec :
    ∀ (ds : List Char) (ws : List Nat), ds.length ≤ ws.length →
      goWeightedSum ds ws = some (specWeightedSum (digitValues ds) ws) := by
  intro ds
  induction ds with
  | nil => intro ws _; simp [goWeightedSum, specWeightedSum, digitValues]
  | cons c cs ih =>
    intro ws hw
    cases ws with
    | nil => simp at hw
    | cons w ws =>
      simp only [List.length_cons, Nat.succ_le_succ_iff] at hw
      simp [goWeightedSum, ih ws hw, specWeightedSum, digitValues]

theorem checkDigitRule_le_nine (sum : Nat) : checkDigitRule sum ≤ 9 := by
  unfold checkDigitRule
  have h11 : sum % 11 < 11 := Nat.mod_lt _ (by omega)
  by_cases h : sum % 11 < 2
  · simp [h]
  · simp [h]; omega

theorem digitChar_isDigit {d : Nat} (h : d ≤ 9) : (digitChar d).isDigit = true := by
  interval_cases d <;> decide

theorem digitVal_digitChar {d : Nat} (h : d ≤ 9) : digitVal (digitChar d) = d := by
  interval_cases d <;> decide

theorem digitsOnly_idem (cs : List Char) : digitsOnly (digitsOnly cs) = digitsOnly cs := by
  simp [digitsOnly, List.filter_filter]

theorem length11_destruct {α : Type} {l : List α} (hl : l.length = 11) :
    ∃ c0 c1 c2 c3 c4 c5 c6 c7 c8 c9 c10 : α,
      l = [c0, c1, c2, c3, c4, c5, c6, c7, c8, c9, c10] := by
  rcases l with _ | ⟨c0, _ | ⟨c1, _ | ⟨c2, _ | ⟨c3, _ | ⟨c4, _ | ⟨c5, _ | ⟨c6, _ | ⟨c7,
    _ | ⟨c8, _ | ⟨c9, _ | ⟨c10, _ | ⟨c11, t⟩⟩⟩⟩⟩⟩⟩⟩⟩⟩⟩⟩ <;>
      simp only [List.length_cons, List.length_nil] at hl <;>
        first
          | omega
          | exact ⟨c0, c1, c2, c3, c4, c5, c6, c7, c8, c9, c10, rfl⟩

theorem length14_destruct {α : Type} {l : List α} (hl : l.length = 14) :
    ∃ c0 c1 c2 c3 c4 c5 c6 c7 c8 c9 c10 c11 c12 c13 : α,
      l = [c0, c1, c2, c3, c4, c5, c6, c7, c8, c9, c10, c11, c12, c13] := by
  rcases l with _ | ⟨c0, _ | ⟨c1, _ | ⟨c2, _ | ⟨c3, _ | ⟨c4, _ | ⟨c5, _ | ⟨c6, _ | ⟨c7,
    _ | ⟨c8, _ | ⟨c9, _ | ⟨c10, _ | ⟨c11, _ | ⟨c12, _ | ⟨c13, _ | ⟨c14, t⟩⟩⟩⟩⟩⟩⟩⟩⟩⟩⟩⟩⟩⟩⟩ <;>
      simp only [List.length_cons, List.length_nil] at hl <;>
        first
          | omega
          | exact ⟨c0, c1, c2, c3, c4, c5, c6, c7, c8, c9, c10, c11, c12, c13, rfl⟩

theorem cnpjAllSameLoop_eq_specAllIdentical (c : Char) (rest : List Char) :
    cnpjAllSameLoop c (c :: rest) = specAllIdentical (c :: rest) := by
  rw [cnpjAllSameLoop_eq_all]
  simp [specAllIdentical, List.all_cons]

/-- Core computation lemma for `Validator.CPF`: on an 11-digit sequence whose
first and last characters differ, the result is the check-digit comparison. -/
theorem cpfOnDigits_checksum (c0 c1 c2 c3 c4 c5 c6 c7 c8 c9 c10 : Char) (hne : c0 ≠ c10) :
    cpfOnDigits [c0, c1, c2, c3, c4, c5, c6, c7, c8, c9, c10] =
      if [c9, c10] = [digitChar (specCpfD1 [c0, c1, c2, c3, c4, c5, c6, c7, c8, c9, c10]),
                      digitChar (specCpfD2 [c0, c1, c2, c3, c4, c5, c6, c7, c8, c9, c10])]
      then .ok else .err "invalid CPF check digits" := by
  simp only [cpfOnDigits, List.length_cons, List.length_nil]
  norm_num
  rw [cpfSeqLoop_of_ne hne]
  simp only [Bool.false_eq_true, if_false, List.take, List.drop, List.get?]
  rw [goWeightedSum_eq_spec _ _ (by simp [cpfWeights1, cpfWeights2])]
  simp only []
  rw [goWeightedSum_eq_spec _ _ (by simp [cpfWeights1, cpfWeights2])]
  simp only [specCpfD1, specCpfD2, List.take, digitValues, List.map_cons, List.map_nil,
    List.map_append, digitVal_digitChar (checkDigitRule_le_nine _)]
  rfl

/-- Core sequence lemma for `Validator.CPF`: on an 11-digit sequence whose
first and last characters agree, the identical-digits error fires. -/
theorem cpfOnDigits_seq (c0 c1 c2 c3 c4 c5 c6 c7 c8 c9 : Char) :
    cpfOnDigits [c0, c1, c2, c3, c4, c5, c6, c7, c8, c9, c0] =
      .err "CPF cannot be a sequence of identical digits" := by
  simp only [cpfOnDigits, List.length_cons, List.length_nil]
  norm_num
  intro h
  rw [cpfSeqLoop_head_eq] at h
  simp at h

/-- `Validator.CPF` length guard. -/
theorem cpfOnDigits_length {cs : List Char} (h : cs.length ≠ 11) :
    cpfOnDigits cs = .err "CPF must have exactly 11 digits" := by
  simp [cpfOnDigits, h]

/-- Core computation lemma for `ValidateCNPJ` on a non-degenerate 14-digit
sequence. -/
theorem cnpjOnDigits_checksum (c0 c1 c2 c3 c4 c5 c6 c7 c8 c9 c10 c11 c12 c13 : Char)
    (hne : specAllIdentical [c0, c1, c2, c3, c4, c5, c6, c7, c8, c9, c10, c11, c12, c13] = false) :
    cnpjOnDigits [c0, c1, c2, c3, c4, c5, c6, c7, c8, c9, c10, c11, c12, c13] =
      if [c12, c13] =
          [digitChar (specCnpjD1 [c0, c1, c2, c3, c4, c5, c6, c7, c8, c9, c10, c11, c12, c13]),
           digitChar (specCnpjD2 [c0, c1, c2, c3, c4, c5, c6, c7, c8, c9, c10, c11, c12, c13])]
      then .ok else .err "invalid CNPJ check digits" := by
  simp only [cnpjOnDigits, List.length_cons, List.length_nil]
  norm_num
  rw [cnpjAllSameLoop_eq_specAllIdentical, hne]
  simp only [Bool.false_eq_true, if_false, List.take, List.drop]
  rw [goWeightedSum_eq_spec _ _ (by simp [cnpjWeights1, cnpjWeights2])]
  simp only []
  rw [goWeightedSum_eq_spec _ _ (by simp [cnpjWeights1, cnpjWeights2])]
  simp only [specCnpjD1, specCnpjD2, List.take, digitValues, List.map_cons, List.map_nil,
    List.map_append, digitVal_digitChar (checkDigitRule_le_nine _)]
  rfl

/-- Core sequence lemma for `ValidateCNPJ` on a degenerate 14-digit sequence. -/
theorem cnpjOnDigits_seq (c0 c1 c2 c3 c4 c5 c6 c7 c8 c9 c10 c11 c12 c13 : Char)
    (hall : specAllIdentical [c0, c1, c2, c3, c4, c5, c6, c7, c8, c9, c10, c11, c12, c13] = true) :
    cnpjOnDigits [c0, c1, c2, c3, c4, c5, c6, c7, c8, c9, c10, c11, c12, c13] =
      .err "CNPJ cannot be a sequence of identical digits" := by
  simp only [cnpjOnDigits, List.length_cons, List.length_nil]
  norm_num
  rw [cnpjAllSameLoop_eq_specAllIdentical, hall]
  simp

/-- `ValidateCNPJ` length guard. -/
theorem cnpjOnDigits_length {cs : List Char} (h : cs.length ≠ 14) :
    cnpjOnDigits cs = .err "CNPJ must have exactly 14 digits" := by
  simp [cnpjOnDigits, h]

theorem isDigit_of_mem_digitsOnly {c : Char} {cs : List Char} (h : c ∈ digitsOnly cs) :
    c.isDigit = true := (List.mem_filter.mp h).2

theorem digitChar_digitVal {c : Char} (h : c.isDigit = true) : digitChar (digitVal c) = c := by
  have h1 : '0'.toNat ≤ c.toNat := by
    simp only [Char.isDigit, Bool.and_eq_true, decide_eq_true_eq] at h
    exact h.1
  unfold digitChar digitVal
  rw [if_pos h, Nat.sub_add_cancel h1]
  exact Char.ofNat_toNat c

theorem check_pair_eq_iff {a b : Char} {d1 d2 : Nat}
    (ha : a.isDigit = true) (hb : b.isDigit = true) (hd1 : d1 ≤ 9) (hd2 : d2 ≤ 9) :
    [a, b] = [digitChar d1, digitChar d2] ↔ (digitVal a = d1 ∧ digitVal b = d2) := by
  constructor
  · intro h
    simp only [List.cons.injEq, and_true] at h
    obtain ⟨h1, h2⟩ := h
    subst h1; subst h2
    exact ⟨digitVal_digitChar hd1, digitVal_digitChar hd2⟩
  · intro ⟨h1, h2⟩
    subst h1; subst h2
    rw [digitChar_digitVal ha, digitChar_digitVal hb]

theorem specCpfD1_le_nine (cs : List Char) : specCpfD1 cs ≤ 9 := checkDigitRule_le_nine _

theorem specCpfD2_le_nine (cs : List Char) : specCpfD2 cs ≤ 9 := checkDigitRule_le_nine _

theorem specCnpjD1_le_nine (cs : List Char) : specCnpjD1 cs ≤ 9 := checkDigitRule_le_nine _

theorem specCnpjD2_le_nine (cs : List Char) : specCnpjD2 cs ≤ 9 := checkDigitRule_le_nine _

/-! ### Claim theorems -/

/-- C1: the spec states that the CPF validator rejects an 11-digit input with
"CPF cannot be a sequence of identical digits" if and only if every digit is
identical. The code violates this: on "529.982.247-25" (digits 52998224725,
not all identical, and with matching check digits per the spec formula) the
identical-digits error fires anyway, because the loop in cpf.go actually
tests whether the first digit equals the last digit. -/
theorem cpf_identical_digits_check_misfires :
    cpfValidate (.str "529.982.247-25") = .err "CPF cannot be a sequence of identical digits" ∧
    specAllIdentical (digitsOnly (String.data "529.982.247-25")) = false ∧
    digitValues ((digitsOnly (String.data "529.982.247-25")).drop 9) =
      [specCpfD1 (digitsOnly (String.data "529.982.247-25")),
       specCpfD2 (digitsOnly (String.data "529.982.247-25"))] := by
  exact ⟨by decide, by decide, by decide⟩

/-- C2: for a string input whose normalized form has exactly 11 digits and
which passes the identical-digits check, the CPF validator succeeds iff
digits 9 and 10 of the normalized input equal the check digits computed by
the spec formula of §4.3 (weights [10,9,8,7,6,5,4,3,2] then
[11,10,9,8,7,6,5,4,3,2], remainder mod 11, 0 if remainder < 2, else 11 −
remainder); any mismatch yields "invalid CPF check digits". -/
theorem cpf_check_digit_computation (s : String)
    (hlen : (digitsOnly s.data).length = 11)
    (hpass : (digitsOnly s.data).get? 0 ≠ (digitsOnly s.data).get? 10) :
    (cpfValidate (.str s) = .ok ↔
       digitValues ((digitsOnly s.data).drop 9) =
         [specCpfD1 (digitsOnly s.data), specCpfD2 (digitsOnly s.data)]) ∧
    (cpfValidate (.str s) ≠ .ok →
       cpfValidate (.str s) = .err "invalid CPF check digits") := by
  have hcpf : cpfValidate (.str s) = cpfOnDigits (digitsOnly s.data) := rfl
  rw [hcpf]
  obtain ⟨c0, c1, c2, c3, c4, c5, c6, c7, c8, c9, c10, he⟩ := length11_destruct hlen
  have h9 : c9.isDigit = true := by
    have hm : c9 ∈ digitsOnly s.data := by rw [he]; simp
    exact isDigit_of_mem_digitsOnly hm
  have h10d : c10.isDigit = true := by
    have hm : c10 ∈ digitsOnly s.data := by rw [he]; simp
    exact isDigit_of_mem_digitsOnly hm
  rw [he] at hpass ⊢
  have hne : c0 ≠ c10 := by simpa [List.get?] using hpass
  rw [cpfOnDigits_checksum c0 c1 c2 c3 c4 c5 c6 c7 c8 c9 c10 hne]
  have hiff := check_pair_eq_iff h9 h10d
    (specCpfD1_le_nine [c0, c1, c2, c3, c4, c5, c6, c7, c8, c9, c10])
    (specCpfD2_le_nine [c0, c1, c2, c3, c4, c5, c6, c7, c8, c9, c10])
  by_cases hc : [c9, c10] =
      [digitChar (specCpfD1 [c0, c1, c2, c3, c4, c5, c6, c7, c8, c9, c10]),
       digitChar (specCpfD2 [c0, c1, c2, c3, c4, c5, c6, c7, c8, c9, c10])]
  · rw [if_pos hc]
    obtain ⟨e1, e2⟩ := hiff.mp hc
    refine ⟨⟨fun _ => ?_, fun _ => rfl⟩, fun hno => absurd rfl hno⟩
    simp [digitValues, e1, e2]
  · rw [if_neg hc]
    refine ⟨⟨fun h => absurd h (by simp), fun h => ?_⟩, fun _ => rfl⟩
    exfalso
    refine hc (hiff.mpr ?_)
    simpa [digitValues] using h

/-- Witness for C2 at the concrete valid CPF "111.444.777-35". -/
theorem cpf_check_digit_computation_witness :
    (digitsOnly (String.data "111.444.777-35")).length = 11 ∧
    cpfValidate (.str "111.444.777-35") = .ok := by
  refine ⟨by decide, ?_⟩
  exact (cpf_check_digit_computation "111.444.777-35" (by decide) (by decide)).1.mpr (by decide)

/-- C3: for a string input whose normalized form has exactly 14 digits and is
not an identical-digit sequence, the CNPJ validator succeeds iff digits 12
and 13 of the normalized input equal the check digits computed by the spec
formula of §4.4 (weights [5,4,3,2,9,8,7,6,5,4,3,2] then
[6,5,4,3,2,9,8,7,6,5,4,3,2], same mod-11 rule); any mismatch yields
"invalid CNPJ check digits". -/
theorem cnpj_check_digit_computation (s : String)
    (hlen : (digitsOnly s.data).length = 14)
    (hpass : specAllIdentical (digitsOnly s.data) = false) :
    (cnpjValidate (.str s) = .ok ↔
       digitValues ((digitsOnly s.data).drop 12) =
         [specCnpjD1 (digitsOnly s.data), specCnpjD2 (digitsOnly s.data)]) ∧
    (cnpjValidate (.str s) ≠ .ok →
       cnpjValidate (.str s) = .err "invalid CNPJ check digits") := by
  have hcnpj : cnpjValidate (.str s) = cnpjOnDigits (digitsOnly s.data) := rfl
  rw [hcnpj]
  obtain ⟨c0, c1, c2, c3, c4, c5, c6, c7, c8, c9, c10, c11, c12, c13, he⟩ :=
    length14_destruct hlen
  have h12 : c12.isDigit = true := by
    have hm : c12 ∈ digitsOnly s.data := by rw [he]; simp
    exact isDigit_of_mem_digitsOnly hm
  have h13 : c13.isDigit = true := by
    have hm : c13 ∈ digitsOnly s.data := by rw [he]; simp
    exact isDigit_of_mem_digitsOnly hm
  rw [he] at hpass ⊢
  rw [cnpjOnDigits_checksum c0 c1 c2 c3 c4 c5 c6 c7 c8 c9 c10 c11 c12 c13 hpass]
  have hiff := check_pair_eq_iff h12 h13
    (specCnpjD1_le_nine [c0, c1, c2, c3, c4, c5, c6, c7, c8, c9, c10, c11, c12, c13])
    (specCnpjD2_le_nine [c0, c1, c2, c3, c4, c5, c6, c7, c8, c9, c10, c11, c12, c13])
  by_cases hc : [c12, c13] =
      [digitChar (specCnpjD1 [c0, c1, c2, c3, c4, c5, c6, c7, c8, c9, c10, c11, c12, c13]),
       digitChar (specCnpjD2 [c0, c1, c2, c3, c4, c5, c6, c7, c8, c9, c10, c11, c12, c13])]
  · rw [if_pos hc]
    obtain ⟨e1, e2⟩ := hiff.mp hc
    refine ⟨⟨fun _ => ?_, fun _ => rfl⟩, fun hno => absurd rfl hno⟩
    simp [digitValues, e1, e2]
  · rw [if_neg hc]
    refine ⟨⟨fun h => absurd h (by simp), fun h => ?_⟩, fun _ => rfl⟩
    exfalso
    refine hc (hiff.mpr ?_)
    simpa [digitValues] using h

/-- Witness for C3 at the concrete valid CNPJ "11.222.333/0001-81". -/
theorem cnpj_check_digit_computation_witness :
    (digitsOnly (String.data "11.222.333/0001-81")).length = 14 ∧
    cnpjValidate (.str "11.222.333/0001-81") = .ok := by
  refine ⟨by decide, ?_⟩
  exact (cnpj_check_digit_computation "11.222.333/0001-81" (by decide) (by decide)).1.mpr
    (by decide)

/-- C4: both validators check failures in fixed priority order — non-string
type, then normalized digit count, then identical-digit sequence, then
check digits — and report only the first applicable failure: a non-string
fails with the type error before normalization; a string of wrong
normalized length fails with the length error and never reaches the
sequence or checksum checks (e.g. the 13-digit "1234567890123" for CNPJ
yields the length error); a full-length identical-digit sequence fails
with the sequence error and never reaches the checksum comparison. -/
theorem validators_priority_order :
    (∀ v : GoValue, (∀ s : String, v ≠ .str s) →
        cpfValidate v = .err "CPF must be a string" ∧
        cnpjValidate v = .err "CNPJ must be a string") ∧
    (∀ s : String, (digitsOnly s.data).length ≠ 11 →
        cpfValidate (.str s) = .err "CPF must have exactly 11 digits") ∧
    (∀ s : String, (digitsOnly s.data).length ≠ 14 →
        cnpjValidate (.str s) = .err "CNPJ must have exactly 14 digits") ∧
    (∀ s : String, (digitsOnly s.data).length = 11 →
        specAllIdentical (digitsOnly s.data) = true →
        cpfValidate (.str s) = .err "CPF cannot be a sequence of identical digits") ∧
    (∀ s : String, (digitsOnly s.data).length = 14 →
        specAllIdentical (digitsOnly s.data) = true →
        cnpjValidate (.str s) = .err "CNPJ cannot be a sequence of identical digits") ∧
    cnpjValidate (.str "1234567890123") = .err "CNPJ must have exactly 14 digits" := by
  refine ⟨?_, ?_, ?_, ?_, ?_, by decide⟩
  · intro v hv
    cases v with
    | str s => exact absurd rfl (hv s)
    | intVal n => exact ⟨rfl, rfl⟩
    | boolVal b => exact ⟨rfl, rfl⟩
    | nilVal => exact ⟨rfl, rfl⟩
  · intro s h
    exact cpfOnDigits_length h
  · intro s h
    exact cnpjOnDigits_length h
  · intro s hlen hall
    obtain ⟨c0, c1, c2, c3, c4, c5, c6, c7, c8, c9, c10, he⟩ := length11_destruct hlen
    have hcpf : cpfValidate (.str s) = cpfOnDigits (digitsOnly s.data) := rfl
    rw [hcpf, he]
    rw [he] at hall
    simp only [specAllIdentical, List.all_cons, List.all_nil, Bool.and_eq_true,
      decide_eq_true_eq, and_true] at hall
    obtain ⟨-, -, -, -, -, -, -, -, -, h10⟩ := hall
    rw [h10]
    exact cpfOnDigits_seq c0 c1 c2 c3 c4 c5 c6 c7 c8 c9
  · intro s hlen hall
    obtain ⟨c0, c1, c2, c3, c4, c5, c6, c7, c8, c9, c10, c11, c12, c13, he⟩ :=
      length14_destruct hlen
    have hcnpj : cnpjValidate (.str s) = cnpjOnDigits (digitsOnly s.data) := rfl
    rw [hcnpj, he]
    rw [he] at hall
    exact cnpjOnDigits_seq c0 c1 c2 c3 c4 c5 c6 c7 c8 c9 c10 c11 c12 c13 hall

/-- Witness for C4: a non-string value, a short all-identical CNPJ string,
and a full-length identical-digit CPF string. -/
theorem validators_priority_order_witness :
    cpfValidate (.intVal 7) = .err "CPF must be a string" ∧
    cnpjValidate (.str "1111") = .err "CNPJ must have exactly 14 digits" ∧
    cpfValidate (.str "11111111111") = .err "CPF cannot be a sequence of identical digits" := by
  refine ⟨(validators_priority_order.1 (.intVal 7) (fun s => by simp)).1,
          validators_priority_order.2.2.1 "1111" (by decide),
          validators_priority_order.2.2.2.1 "11111111111" (by decide) (by decide)⟩

/-- C5: the outcome of each validator depends only on the subsequence of
decimal digits of the input: validating a string is the same as validating
its digits-only normalization, and two strings with the same digit
subsequence always get the same outcome. -/
theorem validation_depends_only_on_digits :
    (∀ s : String,
        cpfValidate (.str s) = cpfValidate (.str (String.mk (digitsOnly s.data))) ∧
        cnpjValidate (.str s) = cnpjValidate (.str (String.mk (digitsOnly s.data)))) ∧
    (∀ s t : String, digitsOnly s.data = digitsOnly t.data →
        cpfValidate (.str s) = cpfValidate (.str t) ∧
        cnpjValidate (.str s) = cnpjValidate (.str t)) := by
  constructor
  · intro s
    constructor
    · show cpfOnDigits (digitsOnly s.data) =
        cpfOnDigits (digitsOnly (String.mk (digitsOnly s.data)).data)
      rw [show (String.mk (digitsOnly s.data)).data = digitsOnly s.data from rfl,
        digitsOnly_idem]
    · show cnpjOnDigits (digitsOnly s.data) =
        cnpjOnDigits (digitsOnly (String.mk (digitsOnly s.data)).data)
      rw [show (String.mk (digitsOnly s.data)).data = digitsOnly s.data from rfl,
        digitsOnly_idem]
  · intro s t h
    constructor
    · show cpfOnDigits (digitsOnly s.data) = cpfOnDigits (digitsOnly t.data)
      rw [h]
    · show cnpjOnDigits (digitsOnly s.data) = cnpjOnDigits (digitsOnly t.data)
      rw [h]

/-- Witness for C5: formatted and unformatted renderings of the same
documents get the same outcome. -/
theorem validation_depends_only_on_digits_witness :
    cnpjValidate (.str "11 222 333 0001 81") = cnpjValidate (.str "11222333000181") ∧
    cpfValidate (.str "111.444.777-35") = cpfValidate (.str "11144477735") := by
  exact ⟨(validation_depends_only_on_digits.2 "11 222 333 0001 81" "11222333000181"
            (by decide)).2,
         (validation_depends_only_on_digits.2 "111.444.777-35" "11144477735" (by decide)).1⟩

/-- C6: the known vectors — the CPF validator accepts "111.444.777-35" and
"123.456.789-09" and rejects "111.444.777-45" with "invalid CPF check
digits"; the CNPJ validator accepts "11.222.333/0001-81" and
"12.345.678/0001-95" and rejects "11.222.333/0001-91" with "invalid CNPJ
check digits". -/
theorem known_vectors :
    cpfValidate (.str "111.444.777-35") = .ok ∧
    cpfValidate (.str "123.456.789-09") = .ok ∧
    cpfValidate (.str "111.444.777-45") = .err "invalid CPF check digits" ∧
    cnpjValidate (.str "11.222.333/0001-81") = .ok ∧
    cnpjValidate (.str "12.345.678/0001-95") = .ok ∧
    cnpjValidate (.str "11.222.333/0001-91") = .err "invalid CNPJ check digits" := by
  exact ⟨by decide, by decide, by decide, by decide, by decide, by decide⟩

/-- C7: on an 11-digit normalized input the CPF identical-digits error fires
if and only if the first and last digits are equal, so inputs with distinct
middle digits (such as the checksum-valid "52998224725") are rejected with
"CPF cannot be a sequence of identical digits" without reaching the
check-digit computation. -/
theorem cpf_seq_error_iff_first_eq_last (s : String)
    (hlen : (digitsOnly s.data).length = 11) :
    (cpfValidate (.str s) = .err "CPF cannot be a sequence of identical digits" ↔
      (digitsOnly s.data).get? 0 = (digitsOnly s.data).get? 10) := by
  have hcpf : cpfValidate (.str s) = cpfOnDigits (digitsOnly s.data) := rfl
  obtain ⟨c0, c1, c2, c3, c4, c5, c6, c7, c8, c9, c10, he⟩ := length11_destruct hlen
  rw [hcpf, he]
  constructor
  · intro h
    by_contra hne0
    have hne : c0 ≠ c10 := by simpa [List.get?] using hne0
    rw [cpfOnDigits_checksum c0 c1 c2 c3 c4 c5 c6 c7 c8 c9 c10 hne] at h
    by_cases hc : [c9, c10] =
        [digitChar (specCpfD1 [c0, c1, c2, c3, c4, c5, c6, c7, c8, c9, c10]),
         digitChar (specCpfD2 [c0, c1, c2, c3, c4, c5, c6, c7, c8, c9, c10])]
    · rw [if_pos hc] at h
      exact absurd h (by simp)
    · rw [if_neg hc] at h
      simp only [VerifyResult.err.injEq] at h
      exact absurd h (by decide)
  · intro h
    have h10 : c0 = c10 := by simpa [List.get?] using h
    subst h10
    exact cpfOnDigits_seq c0 c1 c2 c3 c4 c5 c6 c7 c8 c9

/-- Witness for C7: "12345678901" has 11 digits, first digit equal to last
digit, and is rejected with the identical-digits error. -/
theorem cpf_seq_error_iff_first_eq_last_witness :
    (digitsOnly (String.data "12345678901")).length = 11 ∧
    cpfValidate (.str "12345678901") = .err "CPF cannot be a sequence of identical digits" := by
  refine ⟨by decide, ?_⟩
  exact (cpf_seq_error_iff_first_eq_last "12345678901" (by decide)).mpr (by decide)

/-- C8: the normalized length is checked before any indexing, slicing or
weighted-sum arithmetic, so the embedding's out-of-bounds branches (string
indexing and weight-table indexing) are unreachable for every input. -/
theorem validators_never_out_of_bounds (v : GoValue) :
    cpfValidate v ≠ .oob ∧ cnpjValidate v ≠ .oob := by
  constructor
  · cases v with
    | str s =>
      show cpfOnDigits (digitsOnly s.data) ≠ .oob
      by_cases hlen : (digitsOnly s.data).length = 11
      · obtain ⟨c0, c1, c2, c3, c4, c5, c6, c7, c8, c9, c10, he⟩ := length11_destruct hlen
        rw [he]
        by_cases h10 : c0 = c10
        · subst h10
          rw [cpfOnDigits_seq c0 c1 c2 c3 c4 c5 c6 c7 c8 c9]
          simp
        · rw [cpfOnDigits_checksum c0 c1 c2 c3 c4 c5 c6 c7 c8 c9 c10 h10]
          split <;> simp
      · rw [cpfOnDigits_length hlen]
        simp
    | intVal n => simp [cpfValidate]
    | boolVal b => simp [cpfValidate]
    | nilVal => simp [cpfValidate]
  · cases v with
    | str s =>
      show cnpjOnDigits (digitsOnly s.data) ≠ .oob
      by_cases hlen : (digitsOnly s.data).length = 14
      · obtain ⟨c0, c1, c2, c3, c4, c5, c6, c7, c8, c9, c10, c11, c12, c13, he⟩ :=
          length14_destruct hlen
        rw [he]
        by_cases hall : specAllIdentical [c0, c1, c2, c3, c4, c5, c6, c7, c8, c9,
            c10, c11, c12, c13] = true
        · rw [cnpjOnDigits_seq c0 c1 c2 c3 c4 c5 c6 c7 c8 c9 c10 c11 c12 c13 hall]
          simp
        · rw [cnpjOnDigits_checksum c0 c1 c2 c3 c4 c5 c6 c7 c8 c9 c10 c11 c12 c13
            (by simpa using hall)]
          split <;> simp
      · rw [cnpjOnDigits_length hlen]
        simp
    | intVal n => simp [cnpjValidate]
    | boolVal b => simp [cnpjValidate]
    | nilVal => simp [cnpjValidate]

/-- Witness for C8 at a concrete input. -/
theorem validators_never_out_of_bounds_witness :
    cpfValidate (.str "123") ≠ .oob ∧ cnpjValidate (.str "123") ≠ .oob :=
  validators_never_out_of_bounds (.str "123")

/-- C9: every computed check digit is in [0,9]: the remainder mod 11 is in
[0,10], the rule (0 if remainder < 2, else 11 − remainder) yields a value
in [0,9], and the appended character is a valid decimal digit character. -/
theorem check_digit_in_range (sum : Nat) :
    sum % 11 ≤ 10 ∧ checkDigitRule sum ≤ 9 ∧
      (digitChar (checkDigitRule sum)).isDigit = true :=
  ⟨by omega, checkDigitRule_le_nine sum, digitChar_isDigit (checkDigitRule_le_nine sum)⟩

/-- Witness for C9 at the concrete weighted sum of the CPF vector
"111.444.777-35" (sum 162). -/
theorem check_digit_in_range_witness :
    162 % 11 ≤ 10 ∧ checkDigitRule 162 ≤ 9 ∧
      (digitChar (checkDigitRule 162)).isDigit = true :=
  check_digit_in_range 162

/-- C10: both validators are deterministic pure functions — two calls on the
same input value yield identical outcomes, and the outcome depends on
nothing but the input value. -/
theorem validators_deterministic (v w : GoValue) (h : v = w) :
    cpfValidate v = cpfValidate w ∧ cnpjValidate v = cnpjValidate w := by
  subst h
  exact ⟨rfl, rfl⟩

/-- Witness for C10 at concrete inputs. -/
theorem validators_deterministic_witness :
    cpfValidate (.str "123.456.789-09") = cpfValidate (.str "123.456.789-09") ∧
    cnpjValidate (.str "11.222.333/0001-81") = cnpjValidate (.str "11.222.333/0001-81") :=
  ⟨(validators_deterministic (.str "123.456.789-09") (.str "123.456.789-09") rfl).1,
   (validators_deterministic (.str "11.222.333/0001-81") (.str "11.222.333/0001-81") rfl).2⟩

end Veritas
